import Mathlib

/-!
Verification of the OncoVisionX data-partitioning and training-orchestration
engine against its specification.  Metric values carried as floats in the
source are embedded as exact rationals; the control flow, comparisons and
update rules are translated statement by statement from the Python source
(`src/ml_core/src/...`).
-/

set_option autoImplicit false

namespace OncoVisionX

/-! ### EarlyStopping — `src/ml_core/src/training/trainer.py`, lines 23-52 -/

/-- State of the `EarlyStopping` object (`trainer.py:26-32`).  `best_value`
is `none` until the first call, mirroring `self.best_value = None`. -/
structure EarlyStopping where
  patience : Nat
  min_delta : ℚ
  mode : String
  counter : Nat
  best_value : Option ℚ
  should_stop : Bool
deriving Repr, DecidableEq

/-- `EarlyStopping.__init__` (`trainer.py:26-32`).  Python keyword arguments
with defaults are modelled as `Option` parameters: `none` means the caller
omitted the argument, so the default applies (`patience=7`,
`min_delta=0.001`, `mode='max'`). -/
def EarlyStopping.init (patience : Option Nat) (min_delta : Option ℚ)
    (mode : Option String) : EarlyStopping :=
  { patience := patience.getD 7
    min_delta := min_delta.getD (1/1000)
    mode := mode.getD "max"
    counter := 0
    best_value := none
    should_stop := false }

/-- `EarlyStopping.__call__` (`trainer.py:34-52`): returns the updated state
together with the returned boolean.  On the very first call the value is
stored as `best_value` and `False` is returned; otherwise improvement is
`value > best + min_delta` (mode `max`) or `value < best - min_delta`
(mode `min`); on improvement best is replaced and the counter reset, else
the counter is incremented and `should_stop` set once it reaches
`patience`.  The method returns `self.should_stop`. -/
def EarlyStopping.call (s : EarlyStopping) (value : ℚ) :
    EarlyStopping × Bool :=
  match s.best_value with
  | none => ({ s with best_value := some value }, false)
  | some best =>
    let improved : Bool :=
      if s.mode = "max" then decide (value > best + s.min_delta)
      else decide (value < best - s.min_delta)
    if improved then
      let s' := { s with best_value := some value, counter := 0 }
      (s', s'.should_stop)
    else
      let counter' := s.counter + 1
      let stop' := if s.patience ≤ counter' then true else s.should_stop
      let s' := { s with counter := counter', should_stop := stop' }
      (s', s'.should_stop)

/-- Feed a sequence of monitored values to an `EarlyStopping` object,
collecting the boolean returned by each call. -/
def EarlyStopping.run (s : EarlyStopping) : List ℚ → EarlyStopping × List Bool
  | [] => (s, [])
  | v :: rest =>
    let (s', b) := s.call v
    let (s'', bs) := s'.run rest
    (s'', b :: bs)

/-! ### Trainer best-checkpoint decision — `trainer.py`, lines 123-127,
141, 241-263 and 337-342 -/

/-- `Trainer.__init__` (`trainer.py:123-127`) builds its `EarlyStopping`
passing only `patience` and `mode='max'`; `min_delta` is omitted, so the
constructor default `0.001` applies. -/
def trainerEarlyStopping (patience : Nat) : EarlyStopping :=
  EarlyStopping.init (some patience) none (some "max")

/-- Best-checkpoint flags of `Trainer.train` (`trainer.py:337-342`): given
the running best balanced accuracy (initialised to `0.0` at
`trainer.py:141`), each epoch sets `is_best = acc > best` and updates the
best on improvement.  `_save_checkpoint` (`trainer.py:241-263`) writes the
latest record every epoch and the best record exactly when `is_best`. -/
def checkBest : ℚ → List ℚ → List Bool
  | _, [] => []
  | best, v :: rest =>
    let is_best := decide (v > best)
    let best' := if v > best then v else best
    is_best :: checkBest best' rest

/-- Per-epoch best flags of a whole run, starting from
`self.best_val_balanced_acc = 0.0` (`trainer.py:141`). -/
def trainerBestFlags (vals : List ℚ) : List Bool :=
  checkBest 0 vals

/-- Specification-style reading of the best-checkpoint rule: the flag of
epoch `i` is true iff that epoch's balanced accuracy strictly exceeds the
greatest value among `0.0` and all earlier epochs. -/
def specBestFlags (vals : List ℚ) : List Bool :=
  (List.range vals.length).map
    (fun i => decide ((vals.take i).foldl max 0 < vals.getD i 0))

/-- Combined epoch-end bookkeeping of `Trainer.train`: the running best
balanced accuracy together with the early-stopping state
(`trainer.py:337-342` and `357-360`).  Returns the new state, the
`is_best` flag passed to `_save_checkpoint`, and the stop flag returned by
`self.early_stopping(...)`. -/
def trainerEpochEnd (bestAcc : ℚ) (es : EarlyStopping) (acc : ℚ) :
    (ℚ × EarlyStopping) × Bool × Bool :=
  let is_best := decide (acc > bestAcc)
  let bestAcc' := if acc > bestAcc then acc else bestAcc
  let (es', stop) := es.call acc
  ((bestAcc', es'), is_best, stop)

theorem checkBest_length (b : ℚ) (vs : List ℚ) :
    (checkBest b vs).length = vs.length := by
  induction vs generalizing b with
  | nil => rfl
  | cons v rest ih => simp [checkBest, ih]

theorem checkBest_eq_spec (vs : List ℚ) (b : ℚ) :
    checkBest b vs = (List.range vs.length).map
      (fun i => decide ((vs.take i).foldl max b < vs.getD i 0)) := by
  induction vs generalizing b with
  | nil => rfl
  | cons v rest ih =>
    have hmax : ∀ x y : ℚ, (if y > x then y else x) = max x y := by
      intro x y
      rcases le_or_lt y x with h | h
      · simp [not_lt.mpr h, max_eq_left h]
      · simp [h, max_eq_right h.le]
    simp only [checkBest, List.length_cons, List.range_succ_eq_map,
      List.map_cons, List.map_map, hmax]
    refine List.cons_eq_cons.mpr ⟨by simp, ?_⟩
    rw [ih (max b v)]
    apply List.map_congr_left
    intro i _
    simp [List.foldl_cons]

/-- Claim C6: `EarlyStopping` with `mode=max, patience=3, min_delta=0.0`
fed `[0.5, 0.5, 0.5, 0.5]` returns `stopped=False` on calls 1-3 and
`stopped=True` exactly on the 4th call; and in general the first observed
value is accepted as the initial best, returning `False` and leaving the
counter untouched. -/
theorem C6_early_stopping_sequence :
    (((EarlyStopping.init (some 3) (some 0) (some "max")).run
        [1/2, 1/2, 1/2, 1/2]).2 = [false, false, false, true])
    ∧ ∀ (s : EarlyStopping) (v : ℚ), s.best_value = none →
        s.call v = ({ s with best_value := some v }, false) := by
  constructor
  · norm_num [EarlyStopping.run, EarlyStopping.call, EarlyStopping.init]
  · intro s v h
    unfold EarlyStopping.call
    rw [h]

/-- Witness for C6: a concrete first call accepts the value and returns
`False`. -/
theorem C6_early_stopping_sequence_witness :
    ((EarlyStopping.init (some 3) (some 0) (some "max")).call (7/10)).2
      = false := by
  rw [C6_early_stopping_sequence.2
    (EarlyStopping.init (some 3) (some 0) (some "max")) (7/10) rfl]

/-- Claim C7: the best checkpoint is written in an epoch iff that epoch's
balanced accuracy strictly exceeds the best seen so far (initially `0.0`);
the flags for `[0.60, 0.65, 0.65, 0.70]` are `[True, True, False, True]`. -/
theorem C7_best_checkpoint_flags :
    trainerBestFlags [6/10, 65/100, 65/100, 7/10] =
      [true, true, false, true]
    ∧ ∀ vals : List ℚ, trainerBestFlags vals = specBestFlags vals := by
  constructor
  · norm_num [trainerBestFlags, checkBest]
  · intro vals
    exact checkBest_eq_spec vals 0

/-- Claim C10: `Trainer` builds its `EarlyStopping` without passing
`min_delta`, so the default `0.001` applies, while the best-checkpoint
decision uses strict `>` with no delta; an epoch improving on the shared
prior best by `0 < δ < 0.001` therefore sets `is_best=True` in the same
epoch in which the stale counter is incremented, stopping the run once the
counter reaches `patience`. -/
theorem C10_improvement_mismatch (p c : Nat) (b v : ℚ)
    (h1 : b < v) (h2 : v < b + 1/1000) :
    (trainerEarlyStopping p).min_delta = 1/1000 ∧
    (trainerEpochEnd b
        { trainerEarlyStopping p with best_value := some b, counter := c }
        v).2.1 = true ∧
    ((trainerEpochEnd b
        { trainerEarlyStopping p with best_value := some b, counter := c }
        v).1.2).counter = c + 1 ∧
    (trainerEpochEnd b
        { trainerEarlyStopping p with best_value := some b, counter := c }
        v).2.2 = decide (p ≤ c + 1) := by
  have h2' : ¬ (b + 1/1000 < v) := not_lt.mpr h2.le
  refine ⟨rfl, ?_, ?_, ?_⟩ <;>
    simp [trainerEpochEnd, EarlyStopping.call, trainerEarlyStopping,
      EarlyStopping.init, h1, h2'] <;>
    split <;> simp_all

/-- Witness for C10: patience 3, counter 2, best 0.5, new value 0.5005. -/
theorem C10_improvement_mismatch_witness :
    (trainerEpochEnd (1/2)
        { trainerEarlyStopping 3 with best_value := some (1/2), counter := 2 }
        (1001/2000)).2.1 = true :=
  (C10_improvement_mismatch 3 2 (1/2) (1001/2000) (by norm_num)
    (by norm_num)).2.1

/-! ### DataMerger — `src/ml_core/src/preprocessing/data_merger.py` -/

/-- One row of the ISIC 2019 ground-truth table: one indicator value per
label column `MEL, NV, BCC, AK, BKL, DF, VASC, SCC`
(`data_merger.py:91`).  The CSV stores the indicators as floats, embedded
as rationals. -/
structure IsicRow where
  image_id : String
  mel : ℚ
  nv : ℚ
  bcc : ℚ
  ak : ℚ
  bkl : ℚ
  df : ℚ
  vasc : ℚ
  scc : ℚ
deriving Repr, DecidableEq

/-- The label columns of a row, in the order fixed at
`data_merger.py:91`. -/
def labelColumns (r : IsicRow) : List (String × ℚ) :=
  [("MEL", r.mel), ("NV", r.nv), ("BCC", r.bcc), ("AK", r.ak),
   ("BKL", r.bkl), ("DF", r.df), ("VASC", r.vasc), ("SCC", r.scc)]

/-- Helper of `idxmax`: keep the current best column unless a strictly
greater value appears, so the first occurrence of the maximum wins —
pandas `DataFrame.idxmax(axis=1)` semantics (`data_merger.py:99`). -/
def idxmaxFrom (best : String) (bestv : ℚ) : List (String × ℚ) → String
  | [] => best
  | (n, v) :: rest =>
    if bestv < v then idxmaxFrom n v rest else idxmaxFrom best bestv rest

/-- Column name holding the (first) maximal value of a row. -/
def idxmax : List (String × ℚ) → String
  | [] => ""
  | (n, v) :: rest => idxmaxFrom n v rest

/-- ASCII lower-casing of a column name, embedding Python
`str.lower()` as used at `data_merger.py:99`. -/
def asciiLowerChar (c : Char) : Char :=
  if c.isUpper then Char.ofNat (c.toNat + 32) else c

/-- Lower-case a whole string. -/
def asciiLower (s : String) : String :=
  String.mk (s.data.map asciiLowerChar)

/-- `DataMerger.harmonize_isic_labels`, per row
(`data_merger.py:98-102`): `dx` is the lower-cased name of the argmax
column, then the renaming `ak -> akiec` is applied. -/
def harmonize_dx (r : IsicRow) : String :=
  let raw := asciiLower (idxmax (labelColumns r))
  if raw = "ak" then "akiec" else raw

/-- `DataMerger.harmonize_isic_labels` over the whole table: every row is
kept and receives a `dx` value (the source adds a column; no row is ever
dropped or rejected). -/
def harmonize_isic_labels (rows : List IsicRow) : List (IsicRow × String) :=
  rows.map (fun r => (r, harmonize_dx r))

/-- A sample row of the merged registry: `image_id`, `dx` and `source`
(`data_merger.py:171-172` and `194-195`). -/
structure Sample where
  image_id : String
  dx : String
  source : String
deriving Repr, DecidableEq

/-- The id column of a registry. -/
def sampleIds (l : List Sample) : List String :=
  l.map Sample.image_id

/-- `DataMerger.remove_duplicates` (`data_merger.py:109-146`): drop every
ISIC row whose `image_id` occurs among the HAM ids. -/
def remove_duplicates (ham_df isic_df : List Sample) : List Sample :=
  isic_df.filter (fun s => decide (s.image_id ∉ sampleIds ham_df))

/-- Merge step of `DataMerger.merge_datasets` (`data_merger.py:198-207`):
HAM rows first (authoritative source), then the de-duplicated ISIC
rows. -/
def merge_datasets (ham_df isic_df : List Sample) : List Sample :=
  ham_df ++ remove_duplicates ham_df isic_df

/-- Row of the ISIC ground-truth table in which no indicator column is
set. -/
def zeroIndicatorRow : IsicRow :=
  { image_id := "ISIC_0000000", mel := 0, nv := 0, bcc := 0, ak := 0,
    bkl := 0, df := 0, vasc := 0, scc := 0 }

/-- Counterexample to claim C4: a row with all indicator values zero is
not rejected; `idxmax` returns the first column `MEL`, so the row is kept
and assigned the canonical label `mel`. -/
theorem C4_counterexample :
    harmonize_isic_labels [zeroIndicatorRow] = [(zeroIndicatorRow, "mel")] := by
  decide

/-- Claim C4 (amended): for every row in which no indicator column is set,
label harmonization does not reject the row: it is retained (harmonization
never drops rows) and assigned the label of the first indicator column,
`mel`. -/
theorem C4_zero_row_gets_mel (r : IsicRow)
    (h : r.mel = 0 ∧ r.nv = 0 ∧ r.bcc = 0 ∧ r.ak = 0 ∧ r.bkl = 0 ∧
         r.df = 0 ∧ r.vasc = 0 ∧ r.scc = 0) :
    harmonize_dx r = "mel"
    ∧ ∀ rows : List IsicRow,
        (harmonize_isic_labels rows).length = rows.length := by
  obtain ⟨h1, h2, h3, h4, h5, h6, h7, h8⟩ := h
  constructor
  · have hmel : asciiLower "MEL" = "mel" := by decide
    simp [harmonize_dx, labelColumns, idxmax, idxmaxFrom,
      h1, h2, h3, h4, h5, h6, h7, h8, hmel]
  · intro rows
    simp [harmonize_isic_labels]

/-- Witness for C4 (amended): the all-zero row evaluates to label
`mel`. -/
theorem C4_zero_row_gets_mel_witness :
    harmonize_dx zeroIndicatorRow = "mel" :=
  (C4_zero_row_gets_mel zeroIndicatorRow
    ⟨rfl, rfl, rfl, rfl, rfl, rfl, rfl, rfl⟩).1

theorem countP_id_eq_one {l : List String} {i : String}
    (hd : l.Nodup) (hm : i ∈ l) :
    l.countP (fun x => decide (x = i)) = 1 := by
  induction l with
  | nil => cases hm
  | cons a t ih =>
    rcases List.nodup_cons.mp hd with ⟨ha, ht⟩
    rcases List.mem_cons.mp hm with h | h
    · subst h
      have h0 : t.countP (fun x => decide (x = i)) = 0 := by
        refine List.countP_eq_zero.mpr ?_
        intro x hx
        simp only [decide_eq_true_eq]
        intro e
        exact ha (e ▸ hx)
      simp [List.countP_cons, h0]
    · have hne : a ≠ i := fun e => ha (e ▸ h)
      simp [List.countP_cons, ih ht h, hne]

/-- Claim C5: when the two source registries share an id, the merged
registry retains that sample exactly once, and every merged sample with
that id is the HAM (first, authoritative) sample verbatim — label and
source unaltered. -/
theorem C5_merge_dedup (ham_df isic_df : List Sample) (i : String)
    (hnodup : (sampleIds ham_df).Nodup)
    (hham : i ∈ sampleIds ham_df) (_hisic : i ∈ sampleIds isic_df) :
    (merge_datasets ham_df isic_df).countP
        (fun s => decide (s.image_id = i)) = 1
    ∧ ∀ s ∈ merge_datasets ham_df isic_df, s.image_id = i → s ∈ ham_df := by
  constructor
  · have hh : ham_df.countP (fun s => decide (s.image_id = i)) = 1 := by
      have hmap : ham_df.countP (fun s => decide (s.image_id = i)) =
          (sampleIds ham_df).countP (fun x => decide (x = i)) := by
        simp only [sampleIds, List.countP_map]
        rfl
      rw [hmap]
      exact countP_id_eq_one hnodup hham
    have hz : (remove_duplicates ham_df isic_df).countP
        (fun s => decide (s.image_id = i)) = 0 := by
      refine List.countP_eq_zero.mpr ?_
      intro s hs
      have hnot := (List.mem_filter.mp hs).2
      simp only [decide_eq_true_eq] at hnot ⊢
      intro e
      exact hnot (e ▸ hham)
    simp [merge_datasets, List.countP_append, hh, hz]
  · intro s hs he
    rcases List.mem_append.mp hs with h | h
    · exact h
    · exfalso
      have hnot := (List.mem_filter.mp h).2
      simp only [decide_eq_true_eq] at hnot
      exact hnot (he ▸ hham)

/-- Witness for C5: two-row sources sharing the id `ISIC_0000001`; the
merged registry keeps the HAM copy once with its label. -/
theorem C5_merge_dedup_witness :
    (merge_datasets
        [{ image_id := "ISIC_0000001", dx := "mel", source := "ham10000" }]
        [{ image_id := "ISIC_0000001", dx := "nv", source := "isic2019" },
         { image_id := "ISIC_0000002", dx := "nv", source := "isic2019" }]).countP
      (fun s => decide (s.image_id = "ISIC_0000001")) = 1 :=
  (C5_merge_dedup
    [{ image_id := "ISIC_0000001", dx := "mel", source := "ham10000" }]
    [{ image_id := "ISIC_0000001", dx := "nv", source := "isic2019" },
     { image_id := "ISIC_0000002", dx := "nv", source := "isic2019" }]
    "ISIC_0000001" (by decide) (by decide) (by decide)).1

/-! ### Class weights — `src/ml_core/src/datasets/dataloader.py`,
lines 27-99 -/

/-- Weighting method selector (`dataloader.py:43`); the source raises
`ValueError` for any other string, so the two legal values form a closed
type. -/
inductive WeightMethod where
  | inverse_frequency
  | effective_number
deriving Repr, DecidableEq

/-- The fixed decay `beta = 0.9999` of the effective-number formula
(`dataloader.py:82`). -/
def betaEff : ℚ := 9999/10000

/-- Number of training samples of class `c` —
`class_counts.get(diagnosis, 0)` at `dataloader.py:63,69`. -/
def classCountOf (labels : List String) (c : String) : Nat :=
  (labels.filter (fun l => decide (l = c))).length

/-- Weight of a single class (`dataloader.py:71-87`): count zero gives
`1.0` (with a warning), otherwise inverse frequency
`total / (num_classes * count)` or the effective-number formula
`(1 - beta) / (1 - beta ^ count)`. -/
def classWeightOf (total num_classes : Nat) (m : WeightMethod)
    (count : Nat) : ℚ :=
  if count = 0 then 1
  else
    match m with
    | .inverse_frequency => (total : ℚ) / ((num_classes : ℚ) * (count : ℚ))
    | .effective_number => (1 - betaEff) / (1 - betaEff ^ count)

/-- `compute_class_weights` (`dataloader.py:27-99`).  `classes` is the
`class_to_idx` mapping in index order (its values are the indices
`0..n-1`), so the returned list holds one weight per class, at that
class's index.  The second component collects the warnings logged for
zero-count classes (`dataloader.py:72`). -/
def compute_class_weights (labels classes : List String)
    (m : WeightMethod) : List ℚ × List String :=
  (classes.map (fun c =>
      classWeightOf labels.length classes.length m (classCountOf labels c)),
   (classes.filter (fun c => decide (classCountOf labels c = 0))).map
     (fun c => "Class " ++ c ++ " has 0 samples"))

theorem classWeightOf_pos (total num_classes : Nat) (m : WeightMethod)
    (count : Nat) (htot : count ≤ total) (hnc : 0 < num_classes) :
    0 < classWeightOf total num_classes m count := by
  unfold classWeightOf
  by_cases h0 : count = 0
  · simp [h0]
  · have hcount : 0 < count := Nat.pos_of_ne_zero h0
    simp only [h0, if_false]
    cases m with
    | inverse_frequency =>
      apply div_pos
      · exact_mod_cast Nat.lt_of_lt_of_le hcount htot
      · apply mul_pos
        · exact_mod_cast hnc
        · exact_mod_cast hcount
    | effective_number =>
      apply div_pos
      · norm_num [betaEff]
      · have hlt : betaEff ^ count < 1 := by
          apply pow_lt_one₀ (by norm_num [betaEff]) (by norm_num [betaEff]) h0
        linarith

/-- Claim C8: for any training registry and any class with zero samples,
`compute_class_weights` (either method) assigns weight `1.0` at that
class's index and logs a warning; the weight vector always has exactly
one entry per class of the mapping, and every entry is strictly positive
(so no division by zero ever produces a degenerate weight and no class is
dropped). -/
theorem C8_zero_count_class (labels classes : List String)
    (m : WeightMethod) (c : String) (hc : c ∈ classes)
    (h0 : classCountOf labels c = 0) :
    ((compute_class_weights labels classes m).1.length = classes.length)
    ∧ (∀ (idx : Nat) (h : idx < classes.length), classes.get ⟨idx, h⟩ = c →
        (compute_class_weights labels classes m).1.getD idx 0 = 1)
    ∧ ("Class " ++ c ++ " has 0 samples")
        ∈ (compute_class_weights labels classes m).2
    ∧ (∀ w ∈ (compute_class_weights labels classes m).1, 0 < w) := by
  refine ⟨by simp [compute_class_weights], ?_, ?_, ?_⟩
  · intro idx h hidx
    have hmap : (compute_class_weights labels classes m).1[idx]? =
        some (classWeightOf labels.length classes.length m
          (classCountOf labels (classes.get ⟨idx, h⟩))) := by
      simp [compute_class_weights, List.getElem?_map,
        List.getElem?_eq_getElem h]
    rw [List.getD_eq_getElem?_getD, hmap, hidx]
    simp [classWeightOf, h0]
  · refine List.mem_map.mpr ⟨c, ?_, rfl⟩
    exact List.mem_filter.mpr ⟨hc, by simp [h0]⟩
  · intro w hw
    rcases List.mem_map.mp hw with ⟨c', hc', rfl⟩
    apply classWeightOf_pos
    · exact List.length_filter_le _ _
    · exact List.length_pos.mpr (fun e => by simp [e] at hc')

/-- Witness for C8: the class `df` has zero samples in a two-sample
registry; its weight entry is `1`. -/
theorem C8_zero_count_class_witness :
    (compute_class_weights ["mel", "nv"] ["mel", "nv", "df"]
        WeightMethod.inverse_frequency).1.getD 2 0 = 1 :=
  (C8_zero_count_class ["mel", "nv"] ["mel", "nv", "df"]
    WeightMethod.inverse_frequency "df" (by decide) (by decide)).2.1
    2 (by decide) rfl

/-! ### StratifiedDataSplitter —
`src/ml_core/src/preprocessing/data_splitter.py` -/

/-- Number of registry rows of class `c` (the `dx` column). -/
def classCount (df : List Sample) (c : String) : Nat :=
  (df.filter (fun s => decide (s.dx = c))).length

/-- Round a non-negative rational to the nearest natural number, halves
up. -/
def natRound (q : ℚ) : Nat :=
  (⌊q + 1/2⌋).toNat

/-- Position of row `i` within its class: how many earlier rows carry
class `c`. -/
def posInClass (df : List Sample) (i : Nat) (c : String) : Nat :=
  ((df.take i).filter (fun s => decide (s.dx = c))).length

/-- Per-class held-out quota: class count times held-out fraction,
rounded to the nearest integer. -/
def holdoutQuota (df : List Sample) (frac : ℚ) (c : String) : Nat :=
  natRound (frac * (classCount df c : ℚ))

/-- Whether an indexed row is selected for the held-out side: within each
class, the first `holdoutQuota` rows in registry order. -/
def chosen (df : List Sample) (frac : ℚ) (p : Nat × Sample) : Bool :=
  decide (posInClass df p.1 p.2.dx < holdoutQuota df frac p.2.dx)

/-- Modelled from the spec: `sklearn.model_selection.train_test_split`
with `stratify=df.dx` — library code not part of this repository, called
at `data_splitter.py:138` and `149`.  Spec section 4.3: within every
class the fraction assigned to the held-out side equals the target
fraction as closely as integer sample counts allow (here: rounded to
nearest, per class); the library refuses stratification when the least
populated class has fewer than 2 members, raising `ValueError`.  The
seed-driven shuffle is abstracted to the identity permutation, so each
class's first quota rows form the held-out side.  Returns
`(retained, heldout)`. -/
def train_test_split (df : List Sample) (test_size : ℚ) :
    Except String (List Sample × List Sample) :=
  if df.any (fun s => decide (classCount df s.dx < 2)) then
    .error "The least populated class in y has only 1 member, which is too few"
  else
    .ok ((df.enum.filter (fun p => ! chosen df test_size p)).map Prod.snd,
         (df.enum.filter (fun p => chosen df test_size p)).map Prod.snd)

/-- `StratifiedDataSplitter.split_data` (`data_splitter.py:103-159`): the
first split holds out `val_frac + test_frac` of the registry
(`data_splitter.py:136-143`); the second split then divides the held-out
set with the hard-coded `test_size=0.5` of `data_splitter.py:151`
("Split temp equally"), both stratified by `dx`.  The constructor's
`val_ratio` and `test_ratio` are `val_frac` and `test_frac` here;
`train_ratio` is determined as their complement. -/
def split_data (df : List Sample) (val_frac test_frac : ℚ) :
    Except String (List Sample × List Sample × List Sample) :=
  match train_test_split df (val_frac + test_frac) with
  | .error e => .error e
  | .ok (train_df, temp_df) =>
    match train_test_split temp_df (1/2) with
    | .error e => .error e
    | .ok (val_df, test_df) => .ok (train_df, val_df, test_df)

theorem length_filter_not_add {α : Type} (l : List α) (q : α → Bool) :
    (l.filter (fun p => ! q p)).length + (l.filter q).length = l.length := by
  induction l with
  | nil => rfl
  | cons x t ih =>
    by_cases hx : q x <;> simp [List.filter_cons, hx, ← ih] <;> omega

theorem tts_ok_parts {df : List Sample} {f : ℚ} {a b : List Sample}
    (h : train_test_split df f = .ok (a, b)) :
    a = (df.enum.filter (fun p => ! chosen df f p)).map Prod.snd ∧
    b = (df.enum.filter (fun p => chosen df f p)).map Prod.snd := by
  unfold train_test_split at h
  split at h
  · exact Except.noConfusion h
  · cases h
    exact ⟨rfl, rfl⟩

theorem tts_ok_length {df : List Sample} {f : ℚ} {a b : List Sample}
    (h : train_test_split df f = .ok (a, b)) :
    a.length + b.length = df.length := by
  obtain ⟨ha, hb⟩ := tts_ok_parts h
  subst ha hb
  rw [List.length_map, List.length_map]
  have := length_filter_not_add df.enum (fun p => chosen df f p)
  rw [List.enum_length] at this
  exact this

theorem tts_ok_sublist {df : List Sample} {f : ℚ} {a b : List Sample}
    (h : train_test_split df f = .ok (a, b)) :
    a.Sublist df ∧ b.Sublist df := by
  obtain ⟨ha, hb⟩ := tts_ok_parts h
  subst ha hb
  constructor
  · have hs := (List.filter_sublist df.enum
      (p := fun p => ! chosen df f p)).map Prod.snd
    rwa [List.enum_map_snd] at hs
  · have hs := (List.filter_sublist df.enum
      (p := fun p => chosen df f p)).map Prod.snd
    rwa [List.enum_map_snd] at hs

theorem tts_ok_disjoint {df : List Sample} {f : ℚ} {a b : List Sample}
    (hnodup : (sampleIds df).Nodup)
    (h : train_test_split df f = .ok (a, b)) :
    (sampleIds a).Disjoint (sampleIds b) := by
  obtain ⟨ha, hb⟩ := tts_ok_parts h
  subst ha hb
  intro x hxa hxb
  rcases List.mem_map.mp hxa with ⟨s1, hs1, hx1⟩
  rcases List.mem_map.mp hs1 with ⟨p1, hp1, rfl⟩
  rcases List.mem_map.mp hxb with ⟨s2, hs2, hx2⟩
  rcases List.mem_map.mp hs2 with ⟨p2, hp2, rfl⟩
  have hm1 := List.mem_filter.mp hp1
  have hm2 := List.mem_filter.mp hp2
  have hg1 : df[p1.1]? = some p1.2 := List.mem_enum_iff_getElem?.mp hm1.1
  have hg2 : df[p2.1]? = some p2.2 := List.mem_enum_iff_getElem?.mp hm2.1
  have hid : p1.2.image_id = p2.2.image_id := hx1.trans hx2.symm
  have hmap1 : (sampleIds df)[p1.1]? = some p1.2.image_id := by
    simp [sampleIds, List.getElem?_map, hg1]
  have hmap2 : (sampleIds df)[p2.1]? = some p2.2.image_id := by
    simp [sampleIds, List.getElem?_map, hg2]
  have hlt : p1.1 < (sampleIds df).length := by
    by_contra hge
    rw [List.getElem?_eq_none (Nat.le_of_not_lt hge)] at hmap1
    exact Option.noConfusion hmap1
  have hij : p1.1 = p2.1 :=
    List.getElem?_inj hlt hnodup (by rw [hmap1, hmap2, hid])
  have hss : p1.2 = p2.2 := by
    rw [hij, hg2] at hg1
    exact (Option.some.inj hg1).symm
  have hpp : p1 = p2 := Prod.ext hij hss
  rw [hpp] at hm1
  rw [hm2.2] at hm1
  exact Bool.noConfusion hm1.2

/-- Claim C1: whenever `split_data` succeeds on a registry with unique
ids, the three partitions' sizes sum to the registry size and their id
sets are pairwise disjoint — no sample is created or dropped. -/
theorem C1_split_partition (df : List Sample) (vf tf : ℚ)
    (train_df val_df test_df : List Sample)
    (hnodup : (sampleIds df).Nodup)
    (h : split_data df vf tf = .ok (train_df, val_df, test_df)) :
    train_df.length + val_df.length + test_df.length = df.length
    ∧ (sampleIds train_df).Disjoint (sampleIds val_df)
    ∧ (sampleIds train_df).Disjoint (sampleIds test_df)
    ∧ (sampleIds val_df).Disjoint (sampleIds test_df) := by
  unfold split_data at h
  cases h1 : train_test_split df (vf + tf) with
  | error e =>
    rw [h1] at h
    exact Except.noConfusion h
  | ok p =>
    obtain ⟨tr, temp⟩ := p
    rw [h1] at h
    dsimp only at h
    cases h2 : train_test_split temp (1/2) with
    | error e =>
      rw [h2] at h
      exact Except.noConfusion h
    | ok q =>
      obtain ⟨va, te⟩ := q
      rw [h2] at h
      cases h
      have hL1 := tts_ok_length h1
      have hL2 := tts_ok_length h2
      have hD1 := tts_ok_disjoint hnodup h1
      have htemp : (sampleIds temp).Sublist (sampleIds df) :=
        (tts_ok_sublist h1).2.map Sample.image_id
      have hnodup2 : (sampleIds temp).Nodup := htemp.nodup hnodup
      have hD2 := tts_ok_disjoint hnodup2 h2
      have hva : (sampleIds val_df).Sublist (sampleIds temp) :=
        (tts_ok_sublist h2).1.map Sample.image_id
      have hte : (sampleIds test_df).Sublist (sampleIds temp) :=
        (tts_ok_sublist h2).2.map Sample.image_id
      refine ⟨by omega, ?_, ?_, hD2⟩
      · intro x hx1 hx2
        exact hD1 hx1 (hva.subset hx2)
      · intro x hx1 hx2
        exact hD1 hx1 (hte.subset hx2)

/-- A registry row of class `nv` from the HAM source, with the given
id. -/
def nvRow (i : String) : Sample :=
  { image_id := i, dx := "nv", source := "ham10000" }

/-- Five-row single-class registry used as concrete input. -/
def df5 : List Sample := [nvRow "1", nvRow "2", nvRow "3", nvRow "4", nvRow "5"]

/-- Witness for C1: a concrete successful split of a five-row registry
with ratios `(0.70, 0.15, 0.15)` — sizes `3 + 1 + 1 = 5` and pairwise
disjoint id sets. -/
theorem C1_split_partition_witness :
    ([nvRow "3", nvRow "4", nvRow "5"].length + [nvRow "2"].length
        + [nvRow "1"].length = df5.length)
    ∧ (sampleIds [nvRow "3", nvRow "4", nvRow "5"]).Disjoint
        (sampleIds [nvRow "2"])
    ∧ (sampleIds [nvRow "3", nvRow "4", nvRow "5"]).Disjoint
        (sampleIds [nvRow "1"])
    ∧ (sampleIds [nvRow "2"]).Disjoint (sampleIds [nvRow "1"]) :=
  C1_split_partition df5 (15/100) (15/100) _ _ _ (by decide)
    (show split_data df5 (15/100) (15/100) =
        .ok ([nvRow "3", nvRow "4", nvRow "5"], [nvRow "2"], [nvRow "1"]) by
      norm_num [split_data, train_test_split, chosen, posInClass,
        holdoutQuota, natRound, classCount, df5, nvRow, List.enum,
        List.enumFrom])

/-- Ten-row single-class registry used as concrete input. -/
def df10 : List Sample :=
  [nvRow "1", nvRow "2", nvRow "3", nvRow "4", nvRow "5",
   nvRow "6", nvRow "7", nvRow "8", nvRow "9", nvRow "10"]

/-- Counterexample to claim C2: with ratios `(0.7, 0.2, 0.1)` on a
ten-row registry the held-out three rows are split by the hard-coded
`test_size=0.5` of `data_splitter.py:151`, giving `|val| = 1` and
`|test| = 2` — not the `2 : 1` proportion `val_ratio/(val_ratio+test_ratio)`
claimed (which would give `|val| = 2, |test| = 1`). -/
theorem C2_counterexample :
    split_data df10 (2/10) (1/10) =
      .ok ([nvRow "4", nvRow "5", nvRow "6", nvRow "7", nvRow "8",
            nvRow "9", nvRow "10"],
           [nvRow "3"], [nvRow "1", nvRow "2"])
    ∧ ¬ ([nvRow "3"] : List Sample).length =
          2 * ([nvRow "1", nvRow "2"] : List Sample).length := by
  constructor
  · norm_num [split_data, train_test_split, chosen, posInClass,
      holdoutQuota, natRound, classCount, df10, nvRow, List.enum,
      List.enumFrom]
  · decide

/-- Claim C2 (amended): the second stage always divides the held-out set
in half, regardless of how `val_ratio` and `test_ratio` partition their
sum: two ratio pairs with equal sum produce identical splits. -/
theorem C2_half_split_independent (df : List Sample) (v1 t1 v2 t2 : ℚ)
    (hsum : v1 + t1 = v2 + t2) :
    split_data df v1 t1 = split_data df v2 t2 := by
  unfold split_data
  rw [hsum]

/-- Witness for C2 (amended): ratios `(0.2, 0.1)` and `(0.15, 0.15)`
give the same split of the ten-row registry. -/
theorem C2_half_split_independent_witness :
    split_data df10 (2/10) (1/10) = split_data df10 (15/100) (15/100) :=
  C2_half_split_independent df10 (2/10) (1/10) (15/100) (15/100)
    (by norm_num)

/-- Three-row registry in which class `mel` has a single sample. -/
def dfSmallClass : List Sample :=
  [{ image_id := "1", dx := "mel", source := "ham10000" },
   nvRow "2", nvRow "3"]

/-- Counterexample to claim C3: on a registry whose `mel` class has one
sample, `split_data` fails with the stratification error — no sample is
assigned to `train`, no partial split of the remaining classes is
produced, and no warning-and-continue path exists. -/
theorem C3_counterexample :
    split_data dfSmallClass (15/100) (15/100) =
      .error "The least populated class in y has only 1 member, which is too few" := by
  have hany : dfSmallClass.any
      (fun r => decide (classCount dfSmallClass r.dx < 2)) = true := by
    decide
  unfold split_data train_test_split
  rw [hany]
  simp

/-- Claim C3 (amended): whenever some class of the registry has fewer
than 2 samples, `split_data` fails with the stratification error raised
by the underlying library; it never assigns such classes to `train`. -/
theorem C3_small_class_fails (df : List Sample) (vf tf : ℚ) (s : Sample)
    (hs : s ∈ df) (hlt : classCount df s.dx < 2) :
    split_data df vf tf =
      .error "The least populated class in y has only 1 member, which is too few" := by
  have hany : df.any (fun r => decide (classCount df r.dx < 2)) = true :=
    List.any_eq_true.mpr ⟨s, hs, by simp [hlt]⟩
  unfold split_data train_test_split
  rw [hany]
  simp

/-- Witness for C3 (amended): the three-row registry with a singleton
`mel` class makes the split fail. -/
theorem C3_small_class_fails_witness :
    split_data dfSmallClass (1/10) (2/10) =
      .error "The least populated class in y has only 1 member, which is too few" :=
  C3_small_class_fails dfSmallClass (1/10) (2/10)
    { image_id := "1", dx := "mel", source := "ham10000" }
    (by decide) (by decide)

/-! ### MetricsCalculator — `src/ml_core/src/training/metrics.py` -/

/-- `CLASS_NAMES` has eight entries (`metrics.py:23`). -/
def numClasses : Nat := 8

/-- `MELANOMA_IDX = 4`, the position of `mel` in the sorted class names
(`metrics.py:24,41`). -/
def melanomaIdx : Nat := 4

/-- Number of true labels equal to `c` (the support of class `c`). -/
def labelCount (labels : List Nat) (c : Nat) : Nat :=
  (labels.filter (fun l => decide (l = c))).length

/-- Number of predictions equal to `c`. -/
def predCount (preds : List Nat) (c : Nat) : Nat :=
  (preds.filter (fun l => decide (l = c))).length

/-- Number of positions predicted `c` whose true label is also `c`. -/
def truePosCount (preds labels : List Nat) (c : Nat) : Nat :=
  ((preds.zip labels).filter
    (fun x => decide (x.1 = c) && decide (x.2 = c))).length

/-- Per-class recall with `zero_division=0`
(`classification_report(..., zero_division=0)`, `metrics.py:71-76`). -/
def recallOf (preds labels : List Nat) (c : Nat) : ℚ :=
  if labelCount labels c = 0 then 0
  else (truePosCount preds labels c : ℚ) / (labelCount labels c : ℚ)

/-- Per-class precision with `zero_division=0`. -/
def precisionOf (preds labels : List Nat) (c : Nat) : ℚ :=
  if predCount preds c = 0 then 0
  else (truePosCount preds labels c : ℚ) / (predCount preds c : ℚ)

/-- Per-class F1, zero when precision and recall are both zero. -/
def f1Of (preds labels : List Nat) (c : Nat) : ℚ :=
  let p := precisionOf preds labels c
  let r := recallOf preds labels c
  if p + r = 0 then 0 else 2 * p * r / (p + r)

/-- Raw accuracy `(all_preds == all_labels).mean()` (`metrics.py:65`);
the two arrays have equal length in every call. -/
def accuracyOf (preds labels : List Nat) : ℚ :=
  (((preds.zip labels).filter (fun x => decide (x.1 = x.2))).length : ℚ)
    / (labels.length : ℚ)

/-- `balanced_accuracy_score` (`metrics.py:66`): mean of per-class recall
over the classes present in the true labels. -/
def balancedAccuracyOf (preds labels : List Nat) : ℚ :=
  let present := (List.range numClasses).filter
    (fun c => decide (0 < labelCount labels c))
  ((present.map (fun c => recallOf preds labels c)).sum : ℚ)
    / (present.length : ℚ)

/-- Macro F1 of `classification_report` over the fixed eight-class list
(`metrics.py:71-77`). -/
def macroF1Of (preds labels : List Nat) : ℚ :=
  (((List.range numClasses).map (fun c => f1Of preds labels c)).sum : ℚ)
    / (numClasses : ℚ)

/-- Support-weighted F1 of `classification_report` (`metrics.py:78`). -/
def f1WeightedOf (preds labels : List Nat) : ℚ :=
  (((List.range numClasses).map
      (fun c => f1Of preds labels c * (labelCount labels c : ℚ))).sum : ℚ)
    / (labels.length : ℚ)

/-- Mann-Whitney pair score of positive scores against negative scores:
1 per strictly greater pair, 1/2 per tie. -/
def aucPairsSum (posScores negScores : List ℚ) : ℚ :=
  (posScores.map (fun x =>
    (negScores.map (fun y =>
      if y < x then (1 : ℚ) else if x = y then 1/2 else 0)).sum)).sum

/-- Binary `roc_auc_score` (`metrics.py:97-99`): rank statistic of the
positive-class scores; raises when only one class is present in the true
labels. -/
def binaryAUC (pairs : List (Bool × ℚ)) : Except String ℚ :=
  let ps := (pairs.filter (fun x => x.1)).map Prod.snd
  let ns := (pairs.filter (fun x => ! x.1)).map Prod.snd
  if ps.length = 0 ∨ ns.length = 0 then
    .error "Only one class present in y_true. ROC AUC score is not defined in that case"
  else
    .ok (aucPairsSum ps ns / ((ps.length : ℚ) * (ns.length : ℚ)))

/-- One-vs-rest macro `roc_auc_score(multi_class=ovr, average=macro)`
(`metrics.py:91-94`): raises when the classes present in the true labels
do not match the probability columns; otherwise the mean of the per-class
one-vs-rest binary AUCs. -/
def macroRocAucOvr (labels : List Nat) (probs : List (List ℚ)) :
    Except String ℚ := do
  if (labels.dedup).length ≠ numClasses then
    throw "Number of classes in y_true not equal to the number of columns in y_score"
  else
    let aucs ← (List.range numClasses).mapM (fun c =>
      binaryAUC ((labels.map (fun l => decide (l = c))).zip
        (probs.map (fun row => row.getD c 0))))
    pure (aucs.sum / (numClasses : ℚ))

/-- The two AUC computations of the `try` block (`metrics.py:90-99`), in
source order: macro first, then the melanoma binary AUC against the
melanoma probability column. -/
def aucPair (labels : List Nat) (probs : List (List ℚ)) :
    Except String (ℚ × ℚ) := do
  let m ← macroRocAucOvr labels probs
  let mel ← binaryAUC ((labels.map (fun l => decide (l = melanomaIdx))).zip
    (probs.map (fun row => row.getD melanomaIdx 0)))
  pure (m, mel)

/-- The metric dictionary assembled by `MetricsCalculator.compute`
(`metrics.py:43-121`; the per-class F1 entries are subsumed by `f1Of`). -/
structure MetricsSnapshot where
  accuracy : ℚ
  balanced_accuracy : ℚ
  macro_f1 : ℚ
  f1_weighted : ℚ
  mel_sensitivity : ℚ
  mel_precision : ℚ
  mel_f1 : ℚ
  macro_auc_roc : ℚ
  auc_roc_melanoma : ℚ
deriving Repr, DecidableEq

/-- The class labels consulted by `classification_report`
(`metrics.py:71-76`): with no `labels=` argument sklearn infers them as
`unique_labels(y_true, y_pred)` — the distinct values occurring among
true labels and predictions; only their number is consulted here. -/
def reportClasses (preds labels : List Nat) : List Nat :=
  (labels ++ preds).dedup

/-- `MetricsCalculator.compute` (`metrics.py:43-121`).  The
`classification_report` call at `metrics.py:71` sits outside the
`try`/`except` and passes `target_names` without a `labels=` argument, so
sklearn raises `ValueError` whenever the number of distinct classes among
true labels and predictions differs from the eight target names — that
error escapes `compute`.  When the report succeeds, the AUC block runs
under `try` and on any failure both AUC fields fall back to `0.0`
(`metrics.py:100-102`) while every other metric keeps its value. -/
def compute (preds labels : List Nat) (probs : List (List ℚ)) :
    Except String MetricsSnapshot :=
  if (reportClasses preds labels).length ≠ numClasses then
    .error "Number of classes does not match size of target_names. Try specifying the labels parameter"
  else
    let aucs :=
      match aucPair labels probs with
      | .ok p => p
      | .error _ => ((0 : ℚ), (0 : ℚ))
    .ok
      { accuracy := accuracyOf preds labels
        balanced_accuracy := balancedAccuracyOf preds labels
        macro_f1 := macroF1Of preds labels
        f1_weighted := f1WeightedOf preds labels
        mel_sensitivity := recallOf preds labels melanomaIdx
        mel_precision := precisionOf preds labels melanomaIdx
        mel_f1 := f1Of preds labels melanomaIdx
        macro_auc_roc := aucs.1
        auc_roc_melanoma := aucs.2 }

/-- Counterexample to claim C9: a single-class batch (all labels and
predictions `0`) is an input on which the AUC computation fails, yet
`compute` does not return zero-filled AUC fields with the other metrics —
it raises: the `classification_report` call of `metrics.py:71` sits
outside the `try`/`except` and fails because only one distinct class
occurs instead of the eight target names, so no snapshot is returned at
all. -/
theorem C9_counterexample :
    compute [0, 0] [0, 0]
        [[1, 0, 0, 0, 0, 0, 0, 0], [1, 0, 0, 0, 0, 0, 0, 0]] =
      .error "Number of classes does not match size of target_names. Try specifying the labels parameter"
    ∧ aucPair [0, 0]
        [[1, 0, 0, 0, 0, 0, 0, 0], [1, 0, 0, 0, 0, 0, 0, 0]] =
      .error "Number of classes in y_true not equal to the number of columns in y_score" :=
  ⟨rfl, rfl⟩

/-- Claim C9 (amended): on every input where the `classification_report`
class check passes (all eight classes occur among true labels and
predictions) and the AUC computation fails (e.g., the true labels alone
miss a class), `compute` returns a full snapshot: both AUC fields are
`0.0` and every non-AUC metric keeps its directly computed value — no
exception propagates. -/
theorem C9_auc_failure_defaults (preds labels : List Nat)
    (probs : List (List ℚ)) (e : String)
    (hreport : (reportClasses preds labels).length = numClasses)
    (hfail : aucPair labels probs = .error e) :
    compute preds labels probs =
      .ok { accuracy := accuracyOf preds labels
            balanced_accuracy := balancedAccuracyOf preds labels
            macro_f1 := macroF1Of preds labels
            f1_weighted := f1WeightedOf preds labels
            mel_sensitivity := recallOf preds labels melanomaIdx
            mel_precision := precisionOf preds labels melanomaIdx
            mel_f1 := f1Of preds labels melanomaIdx
            macro_auc_roc := 0
            auc_roc_melanoma := 0 } := by
  unfold compute
  rw [if_neg (fun hne => hne hreport), hfail]

/-- Witness for C9 (amended): the predictions supply the class `4`
missing from the true labels, so the report sees all eight classes while
the macro AUC fails; the snapshot is returned with zero AUC fields. -/
theorem C9_auc_failure_defaults_witness :
    compute [4, 4, 4, 4, 4, 4, 4] [0, 1, 2, 3, 5, 6, 7]
        [[1, 0, 0, 0, 0, 0, 0, 0], [1, 0, 0, 0, 0, 0, 0, 0],
         [1, 0, 0, 0, 0, 0, 0, 0], [1, 0, 0, 0, 0, 0, 0, 0],
         [1, 0, 0, 0, 0, 0, 0, 0], [1, 0, 0, 0, 0, 0, 0, 0],
         [1, 0, 0, 0, 0, 0, 0, 0]] =
      .ok { accuracy :=
              accuracyOf [4, 4, 4, 4, 4, 4, 4] [0, 1, 2, 3, 5, 6, 7]
            balanced_accuracy :=
              balancedAccuracyOf [4, 4, 4, 4, 4, 4, 4] [0, 1, 2, 3, 5, 6, 7]
            macro_f1 :=
              macroF1Of [4, 4, 4, 4, 4, 4, 4] [0, 1, 2, 3, 5, 6, 7]
            f1_weighted :=
              f1WeightedOf [4, 4, 4, 4, 4, 4, 4] [0, 1, 2, 3, 5, 6, 7]
            mel_sensitivity :=
              recallOf [4, 4, 4, 4, 4, 4, 4] [0, 1, 2, 3, 5, 6, 7] melanomaIdx
            mel_precision :=
              precisionOf [4, 4, 4, 4, 4, 4, 4] [0, 1, 2, 3, 5, 6, 7] melanomaIdx
            mel_f1 :=
              f1Of [4, 4, 4, 4, 4, 4, 4] [0, 1, 2, 3, 5, 6, 7] melanomaIdx
            macro_auc_roc := 0
            auc_roc_melanoma := 0 } :=
  C9_auc_failure_defaults [4, 4, 4, 4, 4, 4, 4] [0, 1, 2, 3, 5, 6, 7]
    [[1, 0, 0, 0, 0, 0, 0, 0], [1, 0, 0, 0, 0, 0, 0, 0],
     [1, 0, 0, 0, 0, 0, 0, 0], [1, 0, 0, 0, 0, 0, 0, 0],
     [1, 0, 0, 0, 0, 0, 0, 0], [1, 0, 0, 0, 0, 0, 0, 0],
     [1, 0, 0, 0, 0, 0, 0, 0]]
    "Number of classes in y_true not equal to the number of columns in y_score"
    (by rfl) (by rfl)

end OncoVisionX
